import Mathlib

/-!
Verification of the movie-ranking core of `generate-f24-sw-challenge`
(`src/util.ts`: `calculateScore`, `rankMovies`, `getRottenTomatoesScore`,
`runtimeToMinutes`) against its natural-language specification.

The TypeScript code computes with JavaScript `number`s.  Every value the
claims touch is an exact small rational, so the numeric domain is modelled
as `JSNum`: a rational together with the three IEEE special values
`+Infinity`, `-Infinity` and `NaN`, with addition, subtraction, division
and comparison behaving as JavaScript defines them on these values
(`NaN` propagates and makes every comparison false, `w / 0` is a signed
infinity for `w ≠ 0` and `NaN` for `w = 0`, `x + undefined` is `NaN`).

String operations used by the code (`split`, `includes`, `replace` with a
string pattern, `toLowerCase` on ASCII data, `parseInt`, `<=` on strings)
are modelled by executable functions on the character lists underlying
Lean strings, each mirroring the ECMAScript behaviour of the method it
stands for.
-/

namespace MovieRank


/-- JavaScript numbers as used by the scoring code: an exact rational or
one of the special values `+Infinity`, `-Infinity`, `NaN`. -/
inductive JSNum where
  | finite (q : ℚ)
  | posInf
  | negInf
  | nan
deriving DecidableEq

/-- JavaScript addition restricted to `JSNum`, with the finite case
idealized as exact rational addition.  `JSNum.addFP` below is the
rounding-faithful binary64 counterpart; the idealization matters only for
properties that hinge on rounding (see the per-voter additivity claim). -/
def JSNum.add : JSNum → JSNum → JSNum
  | .finite a, .finite b => .finite (a + b)
  | .finite _, .posInf => .posInf
  | .finite _, .negInf => .negInf
  | .finite _, .nan => .nan
  | .posInf, .finite _ => .posInf
  | .posInf, .posInf => .posInf
  | .posInf, .negInf => .nan
  | .posInf, .nan => .nan
  | .negInf, .finite _ => .negInf
  | .negInf, .posInf => .nan
  | .negInf, .negInf => .negInf
  | .negInf, .nan => .nan
  | .nan, _ => .nan

/-- JavaScript unary minus on `JSNum`. -/
def JSNum.neg : JSNum → JSNum
  | .finite a => .finite (-a)
  | .posInf => .negInf
  | .negInf => .posInf
  | .nan => .nan

/-- JavaScript subtraction on `JSNum` (`a - b = a + (-b)`). -/
def JSNum.sub (a b : JSNum) : JSNum := a.add b.neg

/-- JavaScript `<=` on `JSNum`: false whenever either side is `NaN`. -/
def JSNum.leB : JSNum → JSNum → Bool
  | .finite a, .finite b => decide (a ≤ b)
  | .finite _, .posInf => true
  | .finite _, .negInf => false
  | .posInf, .finite _ => false
  | .posInf, .posInf => true
  | .posInf, .negInf => false
  | .negInf, .finite _ => true
  | .negInf, .posInf => true
  | .negInf, .negInf => true
  | .nan, _ => false
  | _, .nan => false

/-- JavaScript `<` on `JSNum`: false whenever either side is `NaN`. -/
def JSNum.ltB : JSNum → JSNum → Bool
  | .finite a, .finite b => decide (a < b)
  | .finite _, .posInf => true
  | .finite _, .negInf => false
  | .posInf, _ => false
  | .negInf, .finite _ => true
  | .negInf, .posInf => true
  | .negInf, .negInf => false
  | .nan, _ => false
  | _, .nan => false

/-- JavaScript `>=` on `JSNum`. -/
def JSNum.geB (a b : JSNum) : Bool := JSNum.leB b a

/-- JavaScript division `w / k` of a finite number by a nonnegative count,
as performed by the `favoriteActors` branch: a signed infinity (or `NaN`
for `0 / 0`) when the count is zero. -/
def jsDiv (w : ℚ) (k : ℕ) : JSNum :=
  if k = 0 then
    if 0 < w then .posInf else if w < 0 then .negInf else .nan
  else .finite (w / (k : ℚ))

/-- `leadsWith pat l` is true when `pat` occurs at the very front of `l`. -/
def leadsWith : List Char → List Char → Bool
  | [], _ => true
  | _ :: _, [] => false
  | a :: as, b :: bs => a == b && leadsWith as bs

/-- `segIn pat l` is true when `pat` occurs contiguously somewhere in `l`;
this models `String.prototype.includes`. -/
def segIn (pat : List Char) : List Char → Bool
  | [] => leadsWith pat []
  | c :: rest => leadsWith pat (c :: rest) || segIn pat rest

/-- `String.prototype.includes`: `jsIncludes s t` is true when `t` occurs
contiguously in `s`. -/
def jsIncludes (s t : String) : Bool := segIn t.data s.data

/-- `String.prototype.split` with a non-empty string separator, on
character lists; `acc` holds the current chunk in reverse. -/
def splitSeq (sep : List Char) (l : List Char) (acc : List Char) : List (List Char) :=
  match l with
  | [] => [acc.reverse]
  | c :: rest =>
    if sep.length > 0 && leadsWith sep (c :: rest) then
      acc.reverse :: splitSeq sep (List.drop (sep.length - 1) rest) []
    else
      splitSeq sep rest (c :: acc)
termination_by l.length
decreasing_by
  · simp only [List.length_drop, List.length_cons]
    omega
  · simp only [List.length_cons]
    omega

/-- `s.split(sep)` for a non-empty separator string. -/
def jsSplit (s sep : String) : List String :=
  (splitSeq sep.data s.data []).map (fun chunk => String.mk chunk)

/-- `String.prototype.replace` with a string pattern: replace only the
first occurrence of `pat` by `rep`. -/
def replaceFirstSeq (pat rep : List Char) : List Char → List Char
  | [] => if leadsWith pat [] then rep else []
  | c :: rest =>
    if leadsWith pat (c :: rest) then rep ++ List.drop pat.length (c :: rest)
    else c :: replaceFirstSeq pat rep rest

/-- `s.replace(pat, rep)` with a string pattern (first occurrence only). -/
def jsReplaceFirst (s pat rep : String) : String :=
  String.mk (replaceFirstSeq pat.data rep.data s.data)

/-- Lexicographic `<=` on character lists, modelling the JavaScript
relational comparison of strings (code-unit order). -/
def lexLe : List Char → List Char → Bool
  | [], _ => true
  | _ :: _, [] => false
  | a :: as, b :: bs => if a < b then true else if b < a then false else lexLe as bs

/-- JavaScript `s <= t` on strings: plain lexicographic comparison. -/
def jsStrLe (s t : String) : Bool := lexLe s.data t.data

/-- The ASCII upper/lower case pairs used by `toLowerCase` on the ASCII
fragment the data lives in. -/
def asciiCasePairs : List (Char × Char) :=
  [('A', 'a'), ('B', 'b'), ('C', 'c'), ('D', 'd'), ('E', 'e'), ('F', 'f'),
   ('G', 'g'), ('H', 'h'), ('I', 'i'), ('J', 'j'), ('K', 'k'), ('L', 'l'),
   ('M', 'm'), ('N', 'n'), ('O', 'o'), ('P', 'p'), ('Q', 'q'), ('R', 'r'),
   ('S', 's'), ('T', 't'), ('U', 'u'), ('V', 'v'), ('W', 'w'), ('X', 'x'),
   ('Y', 'y'), ('Z', 'z')]

/-- The uppercase ASCII letters. -/
def asciiUppers : List Char := asciiCasePairs.map (fun pr => pr.fst)

/-- Case-fold one character as `String.prototype.toLowerCase` does on
ASCII input. -/
def jsCharToLower (c : Char) : Char :=
  match asciiCasePairs.find? (fun pr => pr.fst == c) with
  | some pr => pr.snd
  | none => c

/-- `String.prototype.toLowerCase` on the ASCII fragment. -/
def jsToLower (s : String) : String := String.mk (s.data.map jsCharToLower)

/-- The numeric value of a list of decimal digit characters. -/
def digitsToNat : List Char → ℕ → ℕ
  | [], acc => acc
  | c :: rest, acc => digitsToNat rest (acc * 10 + (c.toNat - 48))

/-- `parseInt(s, 10)` on a character list: skip leading whitespace, read an
optional sign, then the longest run of decimal digits; `none` models the
`NaN` result when no digit is found. -/
def parseIntSeq (l : List Char) : Option ℤ :=
  let l1 := l.dropWhile (fun c => c.isWhitespace)
  match l1 with
  | '-' :: rest =>
    let ds := rest.takeWhile (fun c => c.isDigit)
    if ds.isEmpty then none else some (-(digitsToNat ds 0 : ℤ))
  | '+' :: rest =>
    let ds := rest.takeWhile (fun c => c.isDigit)
    if ds.isEmpty then none else some ((digitsToNat ds 0 : ℤ))
  | _ =>
    let ds := l1.takeWhile (fun c => c.isDigit)
    if ds.isEmpty then none else some ((digitsToNat ds 0 : ℤ))

/-- `parseInt(s, 10)` on a string. -/
def parseIntJS (s : String) : Option ℤ := parseIntSeq s.data

/-- The `JSNum` a `parseInt` result denotes (`none` is `NaN`). -/
def numOfParse : Option ℤ → JSNum
  | some n => .finite (n : ℚ)
  | none => .nan

/-- One preference criterion: a target value and a weight
(`IPreference<T>` in `types.ts`). -/
structure Pref (α : Type) where
  value : α
  weight : ℚ
deriving DecidableEq

/-- The sparse preference record of a person (`IPerson.preferences`). -/
structure Preferences where
  afterYear : Option (Pref ℚ) := none
  beforeYear : Option (Pref ℚ) := none
  maximumAgeRating : Option (Pref String) := none
  shorterThan : Option (Pref String) := none
  favoriteGenre : Option (Pref String) := none
  leastFavoriteDirector : Option (Pref String) := none
  favoriteActors : Option (Pref (List String)) := none
  favoritePlotElements : Option (Pref (List String)) := none
  minimumRottenTomatoesScore : Option (Pref ℚ) := none
deriving DecidableEq

/-- A voter (`IPerson`). -/
structure Person where
  name : String := ""
  preferences : Preferences := {}
deriving DecidableEq

/-- One external rating entry (`IMovie.ratings` element). -/
structure Rating where
  source : String
  value : String
deriving DecidableEq

/-- An item to rank (`IMovie`). -/
structure Movie where
  imdbID : String := ""
  title : String := ""
  year : String := ""
  genre : String := ""
  director : String := ""
  actors : String := ""
  plot : String := ""
  rated : String := ""
  runtime : String := ""
  ratings : List Rating := []
deriving DecidableEq

/-- `runtimeToMinutes` from `util.ts`: split on `"h"`, map each part
through `parseInt(part, 10) || 0`, then destructure `[hours, minutes]`
and return `hours * 60 + minutes`.  When the split yields a single part
(no `"h"` in the input), `minutes` is `undefined` and the result is
`NaN`. -/
def runtimeToMinutes (runtime : String) : JSNum :=
  let parts := (splitSeq ['h'] runtime.data []).map (fun part => (parseIntSeq part).getD 0)
  match parts with
  | [] => .nan
  | [_] => .nan
  | hours :: minutes :: _ => .finite ((hours * 60 + minutes : ℤ) : ℚ)

/-- `getRottenTomatoesScore` from `util.ts`: find the rating whose source
is exactly `"Rotten Tomatoes"`, strip the first `"%"` and `parseInt` the
remainder; a missing entry yields `0`.  (The TypeScript function returns a
`number`, never `null`.) -/
def getRottenTomatoesScore (movie : Movie) : JSNum :=
  match movie.ratings.find? (fun r => r.source == "Rotten Tomatoes") with
  | some rating => numOfParse (parseIntJS (jsReplaceFirst rating.value "%" ""))
  | none => .finite 0

/-- The `afterYear` block of the `calculateScore` loop body. -/
def stepAfterYear (movie : Movie) (person : Person) (score : JSNum) : JSNum :=
  match person.preferences.afterYear with
  | some pref =>
    if (numOfParse (parseIntJS movie.year)).geB (.finite pref.value) then
      score.add (.finite pref.weight)
    else score
  | none => score

/-- The `beforeYear` block of the `calculateScore` loop body. -/
def stepBeforeYear (movie : Movie) (person : Person) (score : JSNum) : JSNum :=
  match person.preferences.beforeYear with
  | some pref =>
    if (numOfParse (parseIntJS movie.year)).ltB (.finite pref.value) then
      score.add (.finite pref.weight)
    else score
  | none => score

/-- The `maximumAgeRating` block of the `calculateScore` loop body:
`movie.rated <= value` is the plain string comparison. -/
def stepMaximumAgeRating (movie : Movie) (person : Person) (score : JSNum) : JSNum :=
  match person.preferences.maximumAgeRating with
  | some pref =>
    if jsStrLe movie.rated pref.value then score.add (.finite pref.weight)
    else score
  | none => score

/-- The `shorterThan` block of the `calculateScore` loop body. -/
def stepShorterThan (movie : Movie) (person : Person) (score : JSNum) : JSNum :=
  match person.preferences.shorterThan with
  | some pref =>
    if (runtimeToMinutes movie.runtime).ltB (runtimeToMinutes pref.value) then
      score.add (.finite pref.weight)
    else score
  | none => score

/-- The `favoriteGenre` block of the `calculateScore` loop body: only the
movie's genre is lowercased, the target is used as given. -/
def stepFavoriteGenre (movie : Movie) (person : Person) (score : JSNum) : JSNum :=
  match person.preferences.favoriteGenre with
  | some pref =>
    if jsIncludes (jsToLower movie.genre) pref.value then
      score.add (.finite pref.weight)
    else score
  | none => score

/-- The `leastFavoriteDirector` block of the `calculateScore` loop body:
the weight is subtracted on an exact match. -/
def stepLeastFavoriteDirector (movie : Movie) (person : Person) (score : JSNum) : JSNum :=
  match person.preferences.leastFavoriteDirector with
  | some pref =>
    if movie.director == pref.value then score.sub (.finite pref.weight)
    else score
  | none => score

/-- The `favoriteActors` block of the `calculateScore` loop body: always
evaluated when present; the cast string is split on `", "` and the weight
is divided by the number of matching cast entries (division by zero when
none match). -/
def stepFavoriteActors (movie : Movie) (person : Person) (score : JSNum) : JSNum :=
  match person.preferences.favoriteActors with
  | some pref =>
    let movieActors := jsSplit movie.actors ", "
    let matching := movieActors.filter (fun actor => pref.value.contains actor)
    score.add (jsDiv pref.weight matching.length)
  | none => score

/-- The `favoritePlotElements` block of the `calculateScore` loop body. -/
def stepFavoritePlotElements (movie : Movie) (person : Person) (score : JSNum) : JSNum :=
  match person.preferences.favoritePlotElements with
  | some pref =>
    let matching := pref.value.filter
      (fun element => jsIncludes (jsToLower movie.plot) (jsToLower element))
    score.add (.finite ((matching.length : ℚ) * pref.weight))
  | none => score

/-- The `minimumRottenTomatoesScore` block of the `calculateScore` loop
body.  (`rtScore !== null` in the source is always true since
`getRottenTomatoesScore` returns a number.) -/
def stepMinimumRottenTomatoesScore (movie : Movie) (person : Person) (score : JSNum) : JSNum :=
  match person.preferences.minimumRottenTomatoesScore with
  | some pref =>
    if (getRottenTomatoesScore movie).geB (.finite pref.value) then
      score.add (.finite pref.weight)
    else score
  | none => score

/-- The body of the `for (const person of people)` loop in
`calculateScore`: the nine criterion blocks applied in source order to the
running score. -/
def applyPerson (movie : Movie) (score : JSNum) (person : Person) : JSNum :=
  stepMinimumRottenTomatoesScore movie person
    (stepFavoritePlotElements movie person
      (stepFavoriteActors movie person
        (stepLeastFavoriteDirector movie person
          (stepFavoriteGenre movie person
            (stepShorterThan movie person
              (stepMaximumAgeRating movie person
                (stepBeforeYear movie person
                  (stepAfterYear movie person score))))))))

/-- `calculateScore` from `util.ts`: the accumulated score over all
people, starting from `0`. -/
def calculateScore (movie : Movie) (people : List Person) : JSNum :=
  people.foldl (applyPerson movie) (.finite 0)

/-- An output entry of `rankMovies`. -/
structure ScoredMovie where
  id : String
  score : JSNum
deriving DecidableEq

/-- The sort comparator `(a, b) => b.score - a.score` of `rankMovies`,
as consumed by `Array.prototype.sort`: `a` stays before `b` exactly when
the comparator value is not positive, a `NaN` comparator value being
treated as `0` (ECMAScript `SortCompare`). -/
def scoreCompareLe (a b : ScoredMovie) : Bool :=
  let v := b.score.sub a.score
  if v = .nan then true else v.leB (.finite 0)

/-- Insert into a sorted list, keeping the inserted element before the
first element it compares `le` to (stable insertion). -/
def insertBy (le : ScoredMovie → ScoredMovie → Bool) (x : ScoredMovie) :
    List ScoredMovie → List ScoredMovie
  | [] => [x]
  | y :: ys => if le x y then x :: y :: ys else y :: insertBy le x ys

/-- A stable sort, modelling `Array.prototype.sort` (stable since
ES2019). -/
def stableSortBy (le : ScoredMovie → ScoredMovie → Bool) :
    List ScoredMovie → List ScoredMovie
  | [] => []
  | x :: xs => insertBy le x (stableSortBy le xs)

/-- `rankMovies` from `util.ts`: map every movie to its id and score,
then sort by the descending-score comparator. -/
def rankMovies (movies : List Movie) (people : List Person) : List ScoredMovie :=
  stableSortBy scoreCompareLe
    (movies.map (fun movie => ⟨movie.imdbID, calculateScore movie people⟩))

/-- Adjacent-pairs check that a scored list is in descending score order
under the JavaScript `>=`. -/
def sortedDescB : List ScoredMovie → Bool
  | [] => true
  | [_] => true
  | a :: b :: rest => a.score.geB b.score && sortedDescB (b :: rest)

/-- The amount the `afterYear` block adds to the running score. -/
def deltaAfterYear (movie : Movie) (person : Person) : JSNum :=
  match person.preferences.afterYear with
  | some pref =>
    if (numOfParse (parseIntJS movie.year)).geB (.finite pref.value) then .finite pref.weight
    else .finite 0
  | none => .finite 0

/-- The amount the `beforeYear` block adds to the running score. -/
def deltaBeforeYear (movie : Movie) (person : Person) : JSNum :=
  match person.preferences.beforeYear with
  | some pref =>
    if (numOfParse (parseIntJS movie.year)).ltB (.finite pref.value) then .finite pref.weight
    else .finite 0
  | none => .finite 0

/-- The amount the `maximumAgeRating` block adds to the running score. -/
def deltaMaximumAgeRating (movie : Movie) (person : Person) : JSNum :=
  match person.preferences.maximumAgeRating with
  | some pref => if jsStrLe movie.rated pref.value then .finite pref.weight else .finite 0
  | none => .finite 0

/-- The amount the `shorterThan` block adds to the running score. -/
def deltaShorterThan (movie : Movie) (person : Person) : JSNum :=
  match person.preferences.shorterThan with
  | some pref =>
    if (runtimeToMinutes movie.runtime).ltB (runtimeToMinutes pref.value) then .finite pref.weight
    else .finite 0
  | none => .finite 0

/-- The amount the `favoriteGenre` block adds to the running score. -/
def deltaFavoriteGenre (movie : Movie) (person : Person) : JSNum :=
  match person.preferences.favoriteGenre with
  | some pref =>
    if jsIncludes (jsToLower movie.genre) pref.value then .finite pref.weight else .finite 0
  | none => .finite 0

/-- The amount the `leastFavoriteDirector` block adds to the running score
(the negated weight on a match). -/
def deltaLeastFavoriteDirector (movie : Movie) (person : Person) : JSNum :=
  match person.preferences.leastFavoriteDirector with
  | some pref => if movie.director == pref.value then .finite (-pref.weight) else .finite 0
  | none => .finite 0

/-- The amount the `favoriteActors` block adds to the running score. -/
def deltaFavoriteActors (movie : Movie) (person : Person) : JSNum :=
  match person.preferences.favoriteActors with
  | some pref =>
    jsDiv pref.weight
      ((jsSplit movie.actors ", ").filter (fun actor => pref.value.contains actor)).length
  | none => .finite 0

/-- The amount the `favoritePlotElements` block adds to the running score. -/
def deltaFavoritePlotElements (movie : Movie) (person : Person) : JSNum :=
  match person.preferences.favoritePlotElements with
  | some pref =>
    .finite (((pref.value.filter
      (fun element => jsIncludes (jsToLower movie.plot) (jsToLower element))).length : ℚ)
        * pref.weight)
  | none => .finite 0

/-- The amount the `minimumRottenTomatoesScore` block adds to the running
score. -/
def deltaMinimumRottenTomatoesScore (movie : Movie) (person : Person) : JSNum :=
  match person.preferences.minimumRottenTomatoesScore with
  | some pref =>
    if (getRottenTomatoesScore movie).geB (.finite pref.value) then .finite pref.weight
    else .finite 0
  | none => .finite 0

/-- One voter's total contribution to one movie's score. -/
def personDelta (movie : Movie) (person : Person) : JSNum :=
  ((((((((deltaAfterYear movie person).add
    (deltaBeforeYear movie person)).add
      (deltaMaximumAgeRating movie person)).add
        (deltaShorterThan movie person)).add
          (deltaFavoriteGenre movie person)).add
            (deltaLeastFavoriteDirector movie person)).add
              (deltaFavoriteActors movie person)).add
                (deltaFavoritePlotElements movie person)).add
                  (deltaMinimumRottenTomatoesScore movie person)

/-- The sum of the voters' contributions, in roster order. -/
def scoreSum (movie : Movie) : List Person → JSNum
  | [] => .finite 0
  | p :: rest => (personDelta movie p).add (scoreSum movie rest)

/-- `p` with the `maximumAgeRating` criterion removed. -/
def clearMaximumAgeRating (p : Person) : Person :=
  { p with preferences := { p.preferences with maximumAgeRating := none } }

/-- `p` with the `favoriteGenre` criterion removed. -/
def clearFavoriteGenre (p : Person) : Person :=
  { p with preferences := { p.preferences with favoriteGenre := none } }

/-- `p` with the `minimumRottenTomatoesScore` criterion removed. -/
def clearMinimumRottenTomatoesScore (p : Person) : Person :=
  { p with preferences := { p.preferences with minimumRottenTomatoesScore := none } }

/-- `p` with the `afterYear` criterion removed. -/
def clearAfterYear (p : Person) : Person :=
  { p with preferences := { p.preferences with afterYear := none } }

/-- `p` with the `beforeYear` criterion removed. -/
def clearBeforeYear (p : Person) : Person :=
  { p with preferences := { p.preferences with beforeYear := none } }

/-- `p` with the `shorterThan` criterion removed. -/
def clearShorterThan (p : Person) : Person :=
  { p with preferences := { p.preferences with shorterThan := none } }

/-- `p` with the `leastFavoriteDirector` criterion removed. -/
def clearLeastFavoriteDirector (p : Person) : Person :=
  { p with preferences := { p.preferences with leastFavoriteDirector := none } }

/-- `p` with the `favoriteActors` criterion removed. -/
def clearFavoriteActors (p : Person) : Person :=
  { p with preferences := { p.preferences with favoriteActors := none } }

/-- `p` with the `favoritePlotElements` criterion removed. -/
def clearFavoritePlotElements (p : Person) : Person :=
  { p with preferences := { p.preferences with favoritePlotElements := none } }

/-- One named criterion together with its target value, used to state
properties about adding a criterion to a voter. -/
inductive Criterion where
  | afterYear (value : ℚ)
  | beforeYear (value : ℚ)
  | maximumAgeRating (value : String)
  | shorterThan (value : String)
  | favoriteGenre (value : String)
  | leastFavoriteDirector (value : String)
  | favoriteActors (value : List String)
  | favoritePlotElements (value : List String)
  | minimumRottenTomatoesScore (value : ℚ)

/-- Add a criterion with the given target value and weight to a voter. -/
def addCriterion (p : Person) (c : Criterion) (w : ℚ) : Person :=
  match c with
  | .afterYear v => { p with preferences := { p.preferences with afterYear := some ⟨v, w⟩ } }
  | .beforeYear v => { p with preferences := { p.preferences with beforeYear := some ⟨v, w⟩ } }
  | .maximumAgeRating v =>
    { p with preferences := { p.preferences with maximumAgeRating := some ⟨v, w⟩ } }
  | .shorterThan v => { p with preferences := { p.preferences with shorterThan := some ⟨v, w⟩ } }
  | .favoriteGenre v =>
    { p with preferences := { p.preferences with favoriteGenre := some ⟨v, w⟩ } }
  | .leastFavoriteDirector v =>
    { p with preferences := { p.preferences with leastFavoriteDirector := some ⟨v, w⟩ } }
  | .favoriteActors v =>
    { p with preferences := { p.preferences with favoriteActors := some ⟨v, w⟩ } }
  | .favoritePlotElements v =>
    { p with preferences := { p.preferences with favoritePlotElements := some ⟨v, w⟩ } }
  | .minimumRottenTomatoesScore v =>
    { p with preferences := { p.preferences with minimumRottenTomatoesScore := some ⟨v, w⟩ } }

/-- The named criterion is absent from the voter's preference set. -/
def criterionAbsent (p : Person) : Criterion → Prop
  | .afterYear _ => p.preferences.afterYear = none
  | .beforeYear _ => p.preferences.beforeYear = none
  | .maximumAgeRating _ => p.preferences.maximumAgeRating = none
  | .shorterThan _ => p.preferences.shorterThan = none
  | .favoriteGenre _ => p.preferences.favoriteGenre = none
  | .leastFavoriteDirector _ => p.preferences.leastFavoriteDirector = none
  | .favoriteActors _ => p.preferences.favoriteActors = none
  | .favoritePlotElements _ => p.preferences.favoritePlotElements = none
  | .minimumRottenTomatoesScore _ => p.preferences.minimumRottenTomatoesScore = none

/-- The side condition under which a weight-0 criterion is harmless: for
`favoriteActors` at least one cast entry must match the list (otherwise
the code computes `0 / 0 = NaN`); every other criterion is harmless
unconditionally. -/
def zeroWeightSafe (m : Movie) : Criterion → Prop
  | .favoriteActors l => ∃ actor ∈ jsSplit m.actors ", ", l.contains actor = true
  | _ => True

/-- The example item of the specification's §8 example. -/
def exampleMovie : Movie where
  imdbID := "tt0111161"
  title := "The Shawshank Redemption"
  year := "1994"
  genre := "Drama"
  director := "Frank Darabont"
  actors := "Tim Robbins, Morgan Freeman"
  plot := "a banker is sentenced to life in prison"
  rated := "R"
  runtime := "2h 22min"
  ratings := [⟨"Rotten Tomatoes", "91%"⟩]

/-- The voter of the specification's §8 example. -/
def exampleVoter : Person where
  name := "voter"
  preferences :=
    { afterYear := some ⟨1990, 5⟩, minimumRottenTomatoesScore := some ⟨90, 3⟩ }

/-- An item none of whose cast members appears in `actorMissVoter`'s list. -/
def actorMissMovie : Movie where
  imdbID := "tt0000005"
  actors := "Tim Robbins, Morgan Freeman"

/-- A voter whose only preference is `favoriteActors ["Nobody"]`, weight 5. -/
def actorMissVoter : Person where
  name := "voter"
  preferences := { favoriteActors := some ⟨["Nobody"], 5⟩ }

/-- A voter with no preferences at all. -/
def emptyVoter : Person where
  name := "voter"

/-- An item with an empty ratings list. -/
def noRTMovie : Movie where
  imdbID := "tt0000001"
  ratings := []

/-- A voter whose only preference is a minimum Rotten Tomatoes score of −1,
weight 2. -/
def minRTVoter : Person where
  name := "voter"
  preferences := { minimumRottenTomatoesScore := some ⟨-1, 2⟩ }

/-- An item rated `"PG-13"`. -/
def ratedMovie : Movie where
  imdbID := "tt0000002"
  rated := "PG-13"

/-- A voter whose only preference is a maximum age rating of `"R"`, weight 4. -/
def maxAgeVoter : Person where
  name := "voter"
  preferences := { maximumAgeRating := some ⟨"R", 4⟩ }

/-- An item with genre `"Drama"`. -/
def genreMovie : Movie where
  imdbID := "tt0000003"
  genre := "Drama"

/-- A voter whose only preference is the favorite genre `"Drama"` (with its
uppercase first letter), weight 2. -/
def genreVoter : Person where
  name := "voter"
  preferences := { favoriteGenre := some ⟨"Drama", 2⟩ }

/-- An item whose Rotten Tomatoes rating value is the unparseable `"N/A"`. -/
def naMovie : Movie where
  imdbID := "tt0000004"
  ratings := [⟨"Rotten Tomatoes", "N/A"⟩]

/-- A voter whose only preference is a minimum Rotten Tomatoes score of 50,
weight 2. -/
def rtVoter : Person where
  name := "voter"
  preferences := { minimumRottenTomatoesScore := some ⟨50, 2⟩ }

/-- Under `rankVoter` this item scores 10. -/
def rankMovieA : Movie where
  imdbID := "A"
  year := "2000"

/-- Under `rankVoter` this item scores −4. -/
def rankMovieB : Movie where
  imdbID := "B"
  year := "1980"
  director := "Bad Director"

/-- Under `rankVoter` this item scores 0. -/
def rankMovieC : Movie where
  imdbID := "C"
  year := "1985"

/-- A voter giving the three ranking example items the scores 10, −4, 0. -/
def rankVoter : Person where
  name := "voter"
  preferences :=
    { afterYear := some ⟨1990, 10⟩, leastFavoriteDirector := some ⟨"Bad Director", 4⟩ }

/-- Under `nanVoter` this item's score is `NaN` (weight-0 `favoriteActors`
with no matching cast entry). -/
def nanMovieA : Movie where
  imdbID := "N1"
  year := "2000"
  actors := "Tim Robbins"

/-- Under `nanVoter` this item scores 10. -/
def nanMovieB : Movie where
  imdbID := "N2"
  year := "2000"
  actors := "Zzz"

/-- A voter whose weight-0 `favoriteActors` list matches `nanMovieB`'s cast
but not `nanMovieA`'s. -/
def nanVoter : Person where
  name := "voter"
  preferences := { afterYear := some ⟨1990, 10⟩, favoriteActors := some ⟨["Zzz"], 0⟩ }

/-- Round an exact rational to the nearest IEEE-754 binary64 value
(53-bit significand, round half to even).  The exponent is left
unbounded: in the magnitudes this development computes with, no overflow
or subnormal underflow occurs, so this coincides with binary64 rounding
there. -/
def fp64Round (q : ℚ) : ℚ :=
  if q = 0 then 0
  else
    let e : ℤ := Int.log 2 |q|
    let x : ℚ := |q| * (2 : ℚ) ^ (52 - e)
    let fl : ℤ := ⌊x⌋
    let fr : ℚ := x - (fl : ℚ)
    let n : ℤ :=
      if fr < 1 / 2 then fl
      else if 1 / 2 < fr then fl + 1
      else if fl % 2 = 0 then fl else fl + 1
    (if q < 0 then -(n : ℚ) else (n : ℚ)) * (2 : ℚ) ^ (e - 52)

/-- JavaScript addition on `JSNum` with binary64 rounding of the finite
case — the rounding-faithful counterpart of `JSNum.add`. -/
def JSNum.addFP : JSNum → JSNum → JSNum
  | .finite a, .finite b => .finite (fp64Round (a + b))
  | .finite _, .posInf => .posInf
  | .finite _, .negInf => .negInf
  | .finite _, .nan => .nan
  | .posInf, .finite _ => .posInf
  | .posInf, .posInf => .posInf
  | .posInf, .negInf => .nan
  | .posInf, .nan => .nan
  | .negInf, .finite _ => .negInf
  | .negInf, .posInf => .nan
  | .negInf, .negInf => .negInf
  | .negInf, .nan => .nan
  | .nan, _ => .nan

/-- JavaScript subtraction with binary64 rounding (negation is exact). -/
def JSNum.subFP (a b : JSNum) : JSNum := a.addFP b.neg

/-- The `favoriteActors` division with binary64 rounding of the finite
quotient. -/
def jsDivFP (w : ℚ) (k : ℕ) : JSNum :=
  if k = 0 then
    if 0 < w then .posInf else if w < 0 then .negInf else .nan
  else .finite (fp64Round (w / (k : ℚ)))

/-- The `afterYear` block with binary64 accumulation. -/
def stepAfterYearFP (movie : Movie) (person : Person) (score : JSNum) : JSNum :=
  match person.preferences.afterYear with
  | some pref =>
    if (numOfParse (parseIntJS movie.year)).geB (.finite pref.value) then
      score.addFP (.finite pref.weight)
    else score
  | none => score

/-- The `beforeYear` block with binary64 accumulation. -/
def stepBeforeYearFP (movie : Movie) (person : Person) (score : JSNum) : JSNum :=
  match person.preferences.beforeYear with
  | some pref =>
    if (numOfParse (parseIntJS movie.year)).ltB (.finite pref.value) then
      score.addFP (.finite pref.weight)
    else score
  | none => score

/-- The `maximumAgeRating` block with binary64 accumulation. -/
def stepMaximumAgeRatingFP (movie : Movie) (person : Person) (score : JSNum) : JSNum :=
  match person.preferences.maximumAgeRating with
  | some pref =>
    if jsStrLe movie.rated pref.value then score.addFP (.finite pref.weight)
    else score
  | none => score

/-- The `shorterThan` block with binary64 accumulation. -/
def stepShorterThanFP (movie : Movie) (person : Person) (score : JSNum) : JSNum :=
  match person.preferences.shorterThan with
  | some pref =>
    if (runtimeToMinutes movie.runtime).ltB (runtimeToMinutes pref.value) then
      score.addFP (.finite pref.weight)
    else score
  | none => score

/-- The `favoriteGenre` block with binary64 accumulation. -/
def stepFavoriteGenreFP (movie : Movie) (person : Person) (score : JSNum) : JSNum :=
  match person.preferences.favoriteGenre with
  | some pref =>
    if jsIncludes (jsToLower movie.genre) pref.value then
      score.addFP (.finite pref.weight)
    else score
  | none => score

/-- The `leastFavoriteDirector` block with binary64 accumulation. -/
def stepLeastFavoriteDirectorFP (movie : Movie) (person : Person) (score : JSNum) : JSNum :=
  match person.preferences.leastFavoriteDirector with
  | some pref =>
    if movie.director == pref.value then score.subFP (.finite pref.weight)
    else score
  | none => score

/-- The `favoriteActors` block with binary64 accumulation. -/
def stepFavoriteActorsFP (movie : Movie) (person : Person) (score : JSNum) : JSNum :=
  match person.preferences.favoriteActors with
  | some pref =>
    let movieActors := jsSplit movie.actors ", "
    let matching := movieActors.filter (fun actor => pref.value.contains actor)
    score.addFP (jsDivFP pref.weight matching.length)
  | none => score

/-- The `favoritePlotElements` block with binary64 accumulation (the
product `k * w` is itself a rounded binary64 multiplication). -/
def stepFavoritePlotElementsFP (movie : Movie) (person : Person) (score : JSNum) : JSNum :=
  match person.preferences.favoritePlotElements with
  | some pref =>
    let matching := pref.value.filter
      (fun element => jsIncludes (jsToLower movie.plot) (jsToLower element))
    score.addFP (.finite (fp64Round ((matching.length : ℚ) * pref.weight)))
  | none => score

/-- The `minimumRottenTomatoesScore` block with binary64 accumulation. -/
def stepMinimumRottenTomatoesScoreFP (movie : Movie) (person : Person) (score : JSNum) : JSNum :=
  match person.preferences.minimumRottenTomatoesScore with
  | some pref =>
    if (getRottenTomatoesScore movie).geB (.finite pref.value) then
      score.addFP (.finite pref.weight)
    else score
  | none => score

/-- The `calculateScore` loop body with binary64 accumulation. -/
def applyPersonFP (movie : Movie) (score : JSNum) (person : Person) : JSNum :=
  stepMinimumRottenTomatoesScoreFP movie person
    (stepFavoritePlotElementsFP movie person
      (stepFavoriteActorsFP movie person
        (stepLeastFavoriteDirectorFP movie person
          (stepFavoriteGenreFP movie person
            (stepShorterThanFP movie person
              (stepMaximumAgeRatingFP movie person
                (stepBeforeYearFP movie person
                  (stepAfterYearFP movie person score))))))))

/-- `calculateScore` with binary64 accumulation: the rounding-faithful
model of the source's arithmetic. -/
def calculateScoreFP (movie : Movie) (people : List Person) : JSNum :=
  people.foldl (applyPersonFP movie) (.finite 0)

/-- Item for the float64 additivity counterexample. -/
def fpMovie : Movie where
  imdbID := "tt0000006"
  year := "2000"

/-- Voter holding `afterYear 1990` with weight 0.1 (the binary64 value of
the JSON literal). -/
def fpVoter1 : Person where
  name := "voter1"
  preferences := { afterYear := some ⟨1990, fp64Round (1 / 10)⟩ }

/-- Voter holding `afterYear 1990` with weight 0.2 and `beforeYear 2100`
with weight 0.3 (binary64 values of the JSON literals). -/
def fpVoter2 : Person where
  name := "voter2"
  preferences :=
    { afterYear := some ⟨1990, fp64Round (2 / 10)⟩,
      beforeYear := some ⟨2100, fp64Round (3 / 10)⟩ }

theorem JSNum.add_zero (s : JSNum) : s.add (.finite 0) = s := by
  cases s <;> simp [JSNum.add]

theorem JSNum.zero_add (s : JSNum) : (JSNum.finite 0).add s = s := by
  cases s <;> simp [JSNum.add]

theorem JSNum.add_assoc (a b c : JSNum) : (a.add b).add c = a.add (b.add c) := by
  cases a <;> cases b <;> cases c <;> simp [JSNum.add]
  ring

theorem JSNum.add_comm (a b : JSNum) : a.add b = b.add a := by
  cases a <;> cases b <;> simp [JSNum.add]
  ring

theorem JSNum.add_left_comm (a b c : JSNum) : a.add (b.add c) = b.add (a.add c) := by
  rw [← JSNum.add_assoc, JSNum.add_comm a b, JSNum.add_assoc]

theorem stepAfterYear_eq (m : Movie) (p : Person) (s : JSNum) :
    stepAfterYear m p s = s.add (deltaAfterYear m p) := by
  cases h : p.preferences.afterYear with
  | none => simp [stepAfterYear, deltaAfterYear, h, JSNum.add_zero]
  | some pref =>
    simp only [stepAfterYear, deltaAfterYear, h]
    split <;> simp [*, JSNum.add_zero]

theorem stepBeforeYear_eq (m : Movie) (p : Person) (s : JSNum) :
    stepBeforeYear m p s = s.add (deltaBeforeYear m p) := by
  cases h : p.preferences.beforeYear with
  | none => simp [stepBeforeYear, deltaBeforeYear, h, JSNum.add_zero]
  | some pref =>
    simp only [stepBeforeYear, deltaBeforeYear, h]
    split <;> simp [*, JSNum.add_zero]

theorem stepMaximumAgeRating_eq (m : Movie) (p : Person) (s : JSNum) :
    stepMaximumAgeRating m p s = s.add (deltaMaximumAgeRating m p) := by
  cases h : p.preferences.maximumAgeRating with
  | none => simp [stepMaximumAgeRating, deltaMaximumAgeRating, h, JSNum.add_zero]
  | some pref =>
    simp only [stepMaximumAgeRating, deltaMaximumAgeRating, h]
    split <;> simp [*, JSNum.add_zero]

theorem stepShorterThan_eq (m : Movie) (p : Person) (s : JSNum) :
    stepShorterThan m p s = s.add (deltaShorterThan m p) := by
  cases h : p.preferences.shorterThan with
  | none => simp [stepShorterThan, deltaShorterThan, h, JSNum.add_zero]
  | some pref =>
    simp only [stepShorterThan, deltaShorterThan, h]
    split <;> simp [*, JSNum.add_zero]

theorem stepFavoriteGenre_eq (m : Movie) (p : Person) (s : JSNum) :
    stepFavoriteGenre m p s = s.add (deltaFavoriteGenre m p) := by
  cases h : p.preferences.favoriteGenre with
  | none => simp [stepFavoriteGenre, deltaFavoriteGenre, h, JSNum.add_zero]
  | some pref =>
    simp only [stepFavoriteGenre, deltaFavoriteGenre, h]
    split <;> simp [*, JSNum.add_zero]

theorem stepLeastFavoriteDirector_eq (m : Movie) (p : Person) (s : JSNum) :
    stepLeastFavoriteDirector m p s = s.add (deltaLeastFavoriteDirector m p) := by
  cases h : p.preferences.leastFavoriteDirector with
  | none => simp [stepLeastFavoriteDirector, deltaLeastFavoriteDirector, h, JSNum.add_zero]
  | some pref =>
    simp only [stepLeastFavoriteDirector, deltaLeastFavoriteDirector, h]
    split <;> simp [*, JSNum.add_zero, JSNum.sub, JSNum.neg]

theorem stepFavoriteActors_eq (m : Movie) (p : Person) (s : JSNum) :
    stepFavoriteActors m p s = s.add (deltaFavoriteActors m p) := by
  cases h : p.preferences.favoriteActors with
  | none => simp [stepFavoriteActors, deltaFavoriteActors, h, JSNum.add_zero]
  | some pref => simp only [stepFavoriteActors, deltaFavoriteActors, h]

theorem stepFavoritePlotElements_eq (m : Movie) (p : Person) (s : JSNum) :
    stepFavoritePlotElements m p s = s.add (deltaFavoritePlotElements m p) := by
  cases h : p.preferences.favoritePlotElements with
  | none => simp [stepFavoritePlotElements, deltaFavoritePlotElements, h, JSNum.add_zero]
  | some pref => simp only [stepFavoritePlotElements, deltaFavoritePlotElements, h]

theorem stepMinimumRottenTomatoesScore_eq (m : Movie) (p : Person) (s : JSNum) :
    stepMinimumRottenTomatoesScore m p s = s.add (deltaMinimumRottenTomatoesScore m p) := by
  cases h : p.preferences.minimumRottenTomatoesScore with
  | none => simp [stepMinimumRottenTomatoesScore, deltaMinimumRottenTomatoesScore, h, JSNum.add_zero]
  | some pref =>
    simp only [stepMinimumRottenTomatoesScore, deltaMinimumRottenTomatoesScore, h]
    split <;> simp [*, JSNum.add_zero]

theorem applyPerson_eq (m : Movie) (s : JSNum) (p : Person) :
    applyPerson m s p = s.add (personDelta m p) := by
  unfold applyPerson personDelta
  rw [stepAfterYear_eq, stepBeforeYear_eq, stepMaximumAgeRating_eq, stepShorterThan_eq,
    stepFavoriteGenre_eq, stepLeastFavoriteDirector_eq, stepFavoriteActors_eq,
    stepFavoritePlotElements_eq, stepMinimumRottenTomatoesScore_eq]
  simp [JSNum.add_assoc]

theorem foldl_applyPerson (m : Movie) (l : List Person) (s : JSNum) :
    l.foldl (applyPerson m) s = s.add (scoreSum m l) := by
  induction l generalizing s with
  | nil => simp [scoreSum, JSNum.add_zero]
  | cons p rest ih =>
    simp only [List.foldl_cons, scoreSum]
    rw [applyPerson_eq, ih, JSNum.add_assoc]

theorem calculateScore_eq (m : Movie) (l : List Person) :
    calculateScore m l = scoreSum m l := by
  unfold calculateScore
  rw [foldl_applyPerson, JSNum.zero_add]

theorem calculateScore_split (m : Movie) (pre post : List Person) (p : Person) :
    calculateScore m (pre ++ p :: post) =
      (scoreSum m pre).add ((personDelta m p).add (scoreSum m post)) := by
  rw [calculateScore_eq]
  induction pre with
  | nil => simp [scoreSum, JSNum.zero_add]
  | cons q rest ih => simp [scoreSum, ih, JSNum.add_assoc]

theorem calculateScore_replace (m : Movie) (pre post : List Person) (p p' : Person) (d : JSNum)
    (h : personDelta m p' = (personDelta m p).add d) :
    calculateScore m (pre ++ p' :: post) = (calculateScore m (pre ++ p :: post)).add d := by
  rw [calculateScore_split, calculateScore_split, h]
  simp [JSNum.add_assoc, JSNum.add_comm, JSNum.add_left_comm]

theorem calculateScore_congr (m : Movie) (pre post : List Person) (p p' : Person)
    (h : personDelta m p' = personDelta m p) :
    calculateScore m (pre ++ p' :: post) = calculateScore m (pre ++ p :: post) := by
  rw [calculateScore_split, calculateScore_split, h]

theorem foldl_add_init (l : List JSNum) (s : JSNum) :
    l.foldl JSNum.add s = s.add (l.foldl JSNum.add (JSNum.finite 0)) := by
  induction l generalizing s with
  | nil => simp [JSNum.add_zero]
  | cons a rest ih =>
    simp only [List.foldl_cons]
    rw [ih (s.add a), ih ((JSNum.finite 0).add a), JSNum.zero_add, JSNum.add_assoc]

theorem foldl_add_eq_scoreSum (m : Movie) (l : List Person) :
    (l.map (fun p => personDelta m p)).foldl JSNum.add (JSNum.finite 0) = scoreSum m l := by
  induction l with
  | nil => rfl
  | cons p rest ih =>
    simp only [List.map_cons, List.foldl_cons, scoreSum]
    rw [foldl_add_init, JSNum.zero_add, ih]

theorem calculateScore_singleton (m : Movie) (p : Person) :
    calculateScore m [p] = personDelta m p := by
  rw [calculateScore_eq]
  simp [scoreSum, JSNum.add_zero]

theorem personDelta_clear_maximumAgeRating (m : Movie) (p : Person) :
    personDelta m p =
      (personDelta m (clearMaximumAgeRating p)).add (deltaMaximumAgeRating m p) := by
  have h : personDelta m (clearMaximumAgeRating p) =
      ((((((((deltaAfterYear m p).add (deltaBeforeYear m p)).add (JSNum.finite 0)).add (deltaShorterThan m p)).add (deltaFavoriteGenre m p)).add (deltaLeastFavoriteDirector m p)).add (deltaFavoriteActors m p)).add (deltaFavoritePlotElements m p)).add (deltaMinimumRottenTomatoesScore m p) := rfl
  rw [h]
  unfold personDelta
  generalize deltaAfterYear m p = d1
  generalize deltaBeforeYear m p = d2
  generalize deltaMaximumAgeRating m p = d3
  generalize deltaShorterThan m p = d4
  generalize deltaFavoriteGenre m p = d5
  generalize deltaLeastFavoriteDirector m p = d6
  generalize deltaFavoriteActors m p = d7
  generalize deltaFavoritePlotElements m p = d8
  generalize deltaMinimumRottenTomatoesScore m p = d9
  simp [JSNum.add_zero, JSNum.zero_add, JSNum.add_assoc, JSNum.add_comm, JSNum.add_left_comm]

theorem personDelta_clear_favoriteGenre (m : Movie) (p : Person) :
    personDelta m p =
      (personDelta m (clearFavoriteGenre p)).add (deltaFavoriteGenre m p) := by
  have h : personDelta m (clearFavoriteGenre p) =
      ((((((((deltaAfterYear m p).add (deltaBeforeYear m p)).add (deltaMaximumAgeRating m p)).add (deltaShorterThan m p)).add (JSNum.finite 0)).add (deltaLeastFavoriteDirector m p)).add (deltaFavoriteActors m p)).add (deltaFavoritePlotElements m p)).add (deltaMinimumRottenTomatoesScore m p) := rfl
  rw [h]
  unfold personDelta
  generalize deltaAfterYear m p = d1
  generalize deltaBeforeYear m p = d2
  generalize deltaMaximumAgeRating m p = d3
  generalize deltaShorterThan m p = d4
  generalize deltaFavoriteGenre m p = d5
  generalize deltaLeastFavoriteDirector m p = d6
  generalize deltaFavoriteActors m p = d7
  generalize deltaFavoritePlotElements m p = d8
  generalize deltaMinimumRottenTomatoesScore m p = d9
  simp [JSNum.add_zero, JSNum.zero_add, JSNum.add_assoc, JSNum.add_comm, JSNum.add_left_comm]

theorem personDelta_clear_minimumRottenTomatoesScore (m : Movie) (p : Person) :
    personDelta m p =
      (personDelta m (clearMinimumRottenTomatoesScore p)).add
        (deltaMinimumRottenTomatoesScore m p) := by
  have h : personDelta m (clearMinimumRottenTomatoesScore p) =
      ((((((((deltaAfterYear m p).add (deltaBeforeYear m p)).add (deltaMaximumAgeRating m p)).add (deltaShorterThan m p)).add (deltaFavoriteGenre m p)).add (deltaLeastFavoriteDirector m p)).add (deltaFavoriteActors m p)).add (deltaFavoritePlotElements m p)).add (JSNum.finite 0) := rfl
  rw [h]
  unfold personDelta
  generalize deltaAfterYear m p = d1
  generalize deltaBeforeYear m p = d2
  generalize deltaMaximumAgeRating m p = d3
  generalize deltaShorterThan m p = d4
  generalize deltaFavoriteGenre m p = d5
  generalize deltaLeastFavoriteDirector m p = d6
  generalize deltaFavoriteActors m p = d7
  generalize deltaFavoritePlotElements m p = d8
  generalize deltaMinimumRottenTomatoesScore m p = d9
  simp [JSNum.add_zero, JSNum.zero_add, JSNum.add_assoc, JSNum.add_comm, JSNum.add_left_comm]

theorem personDelta_clear_afterYear (m : Movie) (p : Person) :
    personDelta m p =
      (personDelta m (clearAfterYear p)).add (deltaAfterYear m p) := by
  have h : personDelta m (clearAfterYear p) =
      ((((((((JSNum.finite 0).add (deltaBeforeYear m p)).add (deltaMaximumAgeRating m p)).add (deltaShorterThan m p)).add (deltaFavoriteGenre m p)).add (deltaLeastFavoriteDirector m p)).add (deltaFavoriteActors m p)).add (deltaFavoritePlotElements m p)).add (deltaMinimumRottenTomatoesScore m p) := rfl
  rw [h]
  unfold personDelta
  generalize deltaAfterYear m p = d1
  generalize deltaBeforeYear m p = d2
  generalize deltaMaximumAgeRating m p = d3
  generalize deltaShorterThan m p = d4
  generalize deltaFavoriteGenre m p = d5
  generalize deltaLeastFavoriteDirector m p = d6
  generalize deltaFavoriteActors m p = d7
  generalize deltaFavoritePlotElements m p = d8
  generalize deltaMinimumRottenTomatoesScore m p = d9
  simp [JSNum.add_zero, JSNum.zero_add, JSNum.add_assoc, JSNum.add_comm, JSNum.add_left_comm]

theorem personDelta_clear_beforeYear (m : Movie) (p : Person) :
    personDelta m p =
      (personDelta m (clearBeforeYear p)).add (deltaBeforeYear m p) := by
  have h : personDelta m (clearBeforeYear p) =
      ((((((((deltaAfterYear m p).add (JSNum.finite 0)).add (deltaMaximumAgeRating m p)).add (deltaShorterThan m p)).add (deltaFavoriteGenre m p)).add (deltaLeastFavoriteDirector m p)).add (deltaFavoriteActors m p)).add (deltaFavoritePlotElements m p)).add (deltaMinimumRottenTomatoesScore m p) := rfl
  rw [h]
  unfold personDelta
  generalize deltaAfterYear m p = d1
  generalize deltaBeforeYear m p = d2
  generalize deltaMaximumAgeRating m p = d3
  generalize deltaShorterThan m p = d4
  generalize deltaFavoriteGenre m p = d5
  generalize deltaLeastFavoriteDirector m p = d6
  generalize deltaFavoriteActors m p = d7
  generalize deltaFavoritePlotElements m p = d8
  generalize deltaMinimumRottenTomatoesScore m p = d9
  simp [JSNum.add_zero, JSNum.zero_add, JSNum.add_assoc, JSNum.add_comm, JSNum.add_left_comm]

theorem personDelta_clear_shorterThan (m : Movie) (p : Person) :
    personDelta m p =
      (personDelta m (clearShorterThan p)).add (deltaShorterThan m p) := by
  have h : personDelta m (clearShorterThan p) =
      ((((((((deltaAfterYear m p).add (deltaBeforeYear m p)).add (deltaMaximumAgeRating m p)).add (JSNum.finite 0)).add (deltaFavoriteGenre m p)).add (deltaLeastFavoriteDirector m p)).add (deltaFavoriteActors m p)).add (deltaFavoritePlotElements m p)).add (deltaMinimumRottenTomatoesScore m p) := rfl
  rw [h]
  unfold personDelta
  generalize deltaAfterYear m p = d1
  generalize deltaBeforeYear m p = d2
  generalize deltaMaximumAgeRating m p = d3
  generalize deltaShorterThan m p = d4
  generalize deltaFavoriteGenre m p = d5
  generalize deltaLeastFavoriteDirector m p = d6
  generalize deltaFavoriteActors m p = d7
  generalize deltaFavoritePlotElements m p = d8
  generalize deltaMinimumRottenTomatoesScore m p = d9
  simp [JSNum.add_zero, JSNum.zero_add, JSNum.add_assoc, JSNum.add_comm, JSNum.add_left_comm]

theorem personDelta_clear_leastFavoriteDirector (m : Movie) (p : Person) :
    personDelta m p =
      (personDelta m (clearLeastFavoriteDirector p)).add (deltaLeastFavoriteDirector m p) := by
  have h : personDelta m (clearLeastFavoriteDirector p) =
      ((((((((deltaAfterYear m p).add (deltaBeforeYear m p)).add (deltaMaximumAgeRating m p)).add (deltaShorterThan m p)).add (deltaFavoriteGenre m p)).add (JSNum.finite 0)).add (deltaFavoriteActors m p)).add (deltaFavoritePlotElements m p)).add (deltaMinimumRottenTomatoesScore m p) := rfl
  rw [h]
  unfold personDelta
  generalize deltaAfterYear m p = d1
  generalize deltaBeforeYear m p = d2
  generalize deltaMaximumAgeRating m p = d3
  generalize deltaShorterThan m p = d4
  generalize deltaFavoriteGenre m p = d5
  generalize deltaLeastFavoriteDirector m p = d6
  generalize deltaFavoriteActors m p = d7
  generalize deltaFavoritePlotElements m p = d8
  generalize deltaMinimumRottenTomatoesScore m p = d9
  simp [JSNum.add_zero, JSNum.zero_add, JSNum.add_assoc, JSNum.add_comm, JSNum.add_left_comm]

theorem personDelta_clear_favoriteActors (m : Movie) (p : Person) :
    personDelta m p =
      (personDelta m (clearFavoriteActors p)).add (deltaFavoriteActors m p) := by
  have h : personDelta m (clearFavoriteActors p) =
      ((((((((deltaAfterYear m p).add (deltaBeforeYear m p)).add (deltaMaximumAgeRating m p)).add (deltaShorterThan m p)).add (deltaFavoriteGenre m p)).add (deltaLeastFavoriteDirector m p)).add (JSNum.finite 0)).add (deltaFavoritePlotElements m p)).add (deltaMinimumRottenTomatoesScore m p) := rfl
  rw [h]
  unfold personDelta
  generalize deltaAfterYear m p = d1
  generalize deltaBeforeYear m p = d2
  generalize deltaMaximumAgeRating m p = d3
  generalize deltaShorterThan m p = d4
  generalize deltaFavoriteGenre m p = d5
  generalize deltaLeastFavoriteDirector m p = d6
  generalize deltaFavoriteActors m p = d7
  generalize deltaFavoritePlotElements m p = d8
  generalize deltaMinimumRottenTomatoesScore m p = d9
  simp [JSNum.add_zero, JSNum.zero_add, JSNum.add_assoc, JSNum.add_comm, JSNum.add_left_comm]

theorem personDelta_clear_favoritePlotElements (m : Movie) (p : Person) :
    personDelta m p =
      (personDelta m (clearFavoritePlotElements p)).add (deltaFavoritePlotElements m p) := by
  have h : personDelta m (clearFavoritePlotElements p) =
      ((((((((deltaAfterYear m p).add (deltaBeforeYear m p)).add (deltaMaximumAgeRating m p)).add (deltaShorterThan m p)).add (deltaFavoriteGenre m p)).add (deltaLeastFavoriteDirector m p)).add (deltaFavoriteActors m p)).add (JSNum.finite 0)).add (deltaMinimumRottenTomatoesScore m p) := rfl
  rw [h]
  unfold personDelta
  generalize deltaAfterYear m p = d1
  generalize deltaBeforeYear m p = d2
  generalize deltaMaximumAgeRating m p = d3
  generalize deltaShorterThan m p = d4
  generalize deltaFavoriteGenre m p = d5
  generalize deltaLeastFavoriteDirector m p = d6
  generalize deltaFavoriteActors m p = d7
  generalize deltaFavoritePlotElements m p = d8
  generalize deltaMinimumRottenTomatoesScore m p = d9
  simp [JSNum.add_zero, JSNum.zero_add, JSNum.add_assoc, JSNum.add_comm, JSNum.add_left_comm]

theorem insertBy_perm (le : ScoredMovie → ScoredMovie → Bool) (x : ScoredMovie)
    (l : List ScoredMovie) : List.Perm (insertBy le x l) (x :: l) := by
  induction l with
  | nil => simp [insertBy]
  | cons y ys ih =>
    simp only [insertBy]
    split
    · exact List.Perm.refl _
    · exact (ih.cons y).trans (List.Perm.swap x y ys)

theorem stableSortBy_perm (le : ScoredMovie → ScoredMovie → Bool) (l : List ScoredMovie) :
    List.Perm (stableSortBy le l) l := by
  induction l with
  | nil => exact List.Perm.refl _
  | cons x xs ih => exact (insertBy_perm le x (stableSortBy le xs)).trans (ih.cons x)

theorem scoreCompareLe_eq (a b : ScoredMovie) (ha : a.score ≠ JSNum.nan)
    (hb : b.score ≠ JSNum.nan) : scoreCompareLe a b = a.score.geB b.score := by
  unfold scoreCompareLe
  cases hA : a.score <;> cases hB : b.score <;>
    simp_all [JSNum.sub, JSNum.neg, JSNum.add, JSNum.leB, JSNum.geB]

theorem geB_total (a b : JSNum) (ha : a ≠ JSNum.nan) (hb : b ≠ JSNum.nan) :
    a.geB b = true ∨ b.geB a = true := by
  cases a <;> cases b <;> simp_all [JSNum.geB, JSNum.leB]
  exact le_total _ _

theorem geB_trans {a b c : JSNum} (h1 : a.geB b = true) (h2 : b.geB c = true) :
    a.geB c = true := by
  cases a <;> cases b <;> cases c <;> simp_all [JSNum.geB, JSNum.leB]
  exact le_trans h2 h1

theorem pairwise_insertBy (x : ScoredMovie) (hx : x.score ≠ JSNum.nan) :
    ∀ l : List ScoredMovie, (∀ y ∈ l, y.score ≠ JSNum.nan) →
      l.Pairwise (fun a b => a.score.geB b.score = true) →
      (insertBy scoreCompareLe x l).Pairwise (fun a b => a.score.geB b.score = true) := by
  intro l
  induction l with
  | nil =>
    intro _ _
    simp [insertBy]
  | cons y ys ih =>
    intro hl hs
    have hy : y.score ≠ JSNum.nan := hl y (by simp)
    have hys : ∀ z ∈ ys, z.score ≠ JSNum.nan := fun z hz => hl z (by simp [hz])
    rw [List.pairwise_cons] at hs
    cases hc : scoreCompareLe x y with
    | true =>
      have hxy : x.score.geB y.score = true := by
        rw [scoreCompareLe_eq x y hx hy] at hc
        exact hc
      simp only [insertBy, hc, if_true]
      rw [List.pairwise_cons]
      refine ⟨?_, List.pairwise_cons.mpr hs⟩
      intro z hz
      rcases List.mem_cons.mp hz with rfl | hzys
      · exact hxy
      · exact geB_trans hxy (hs.1 z hzys)
    | false =>
      have hyx : y.score.geB x.score = true := by
        have := geB_total x.score y.score hx hy
        rw [scoreCompareLe_eq x y hx hy] at hc
        rcases this with h | h
        · rw [h] at hc
          cases hc
        · exact h
      simp only [insertBy, hc, Bool.false_eq_true, if_false]
      rw [List.pairwise_cons]
      refine ⟨?_, ih hys hs.2⟩
      intro z hz
      rcases List.mem_cons.mp ((insertBy_perm scoreCompareLe x ys).mem_iff.mp hz) with rfl | hzys
      · exact hyx
      · exact hs.1 z hzys

theorem pairwise_stableSortBy :
    ∀ l : List ScoredMovie, (∀ y ∈ l, y.score ≠ JSNum.nan) →
      (stableSortBy scoreCompareLe l).Pairwise (fun a b => a.score.geB b.score = true) := by
  intro l
  induction l with
  | nil =>
    intro _
    exact List.Pairwise.nil
  | cons x xs ih =>
    intro hl
    have hx : x.score ≠ JSNum.nan := hl x (by simp)
    have hxs : ∀ y ∈ xs, y.score ≠ JSNum.nan := fun y hy => hl y (by simp [hy])
    exact pairwise_insertBy x hx (stableSortBy scoreCompareLe xs)
      (fun y hy => hxs y ((stableSortBy_perm scoreCompareLe xs).mem_iff.mp hy))
      (ih hxs)

theorem personDelta_addCriterion_zero (m : Movie) (p : Person) (c : Criterion)
    (habs : criterionAbsent p c) (hguard : zeroWeightSafe m c) :
    personDelta m (addCriterion p c 0) = personDelta m p := by
  cases c with
  | afterYear v =>
    simp only [criterionAbsent] at habs
    have hcl : clearAfterYear (addCriterion p (Criterion.afterYear v) 0) = p := by
      cases p with
      | mk nm prefs =>
        cases prefs
        simp only at habs
        subst habs
        rfl
    have hd : deltaAfterYear m (addCriterion p (Criterion.afterYear v) 0) = JSNum.finite 0 := by
      simp [deltaAfterYear, addCriterion]
    rw [personDelta_clear_afterYear m (addCriterion p (Criterion.afterYear v) 0), hcl, hd,
      JSNum.add_zero]
  | beforeYear v =>
    simp only [criterionAbsent] at habs
    have hcl : clearBeforeYear (addCriterion p (Criterion.beforeYear v) 0) = p := by
      cases p with
      | mk nm prefs =>
        cases prefs
        simp only at habs
        subst habs
        rfl
    have hd : deltaBeforeYear m (addCriterion p (Criterion.beforeYear v) 0) = JSNum.finite 0 := by
      simp [deltaBeforeYear, addCriterion]
    rw [personDelta_clear_beforeYear m (addCriterion p (Criterion.beforeYear v) 0), hcl, hd,
      JSNum.add_zero]
  | maximumAgeRating v =>
    simp only [criterionAbsent] at habs
    have hcl : clearMaximumAgeRating (addCriterion p (Criterion.maximumAgeRating v) 0) = p := by
      cases p with
      | mk nm prefs =>
        cases prefs
        simp only at habs
        subst habs
        rfl
    have hd : deltaMaximumAgeRating m (addCriterion p (Criterion.maximumAgeRating v) 0) =
        JSNum.finite 0 := by
      simp [deltaMaximumAgeRating, addCriterion]
    rw [personDelta_clear_maximumAgeRating m (addCriterion p (Criterion.maximumAgeRating v) 0),
      hcl, hd, JSNum.add_zero]
  | shorterThan v =>
    simp only [criterionAbsent] at habs
    have hcl : clearShorterThan (addCriterion p (Criterion.shorterThan v) 0) = p := by
      cases p with
      | mk nm prefs =>
        cases prefs
        simp only at habs
        subst habs
        rfl
    have hd : deltaShorterThan m (addCriterion p (Criterion.shorterThan v) 0) =
        JSNum.finite 0 := by
      simp [deltaShorterThan, addCriterion]
    rw [personDelta_clear_shorterThan m (addCriterion p (Criterion.shorterThan v) 0), hcl, hd,
      JSNum.add_zero]
  | favoriteGenre v =>
    simp only [criterionAbsent] at habs
    have hcl : clearFavoriteGenre (addCriterion p (Criterion.favoriteGenre v) 0) = p := by
      cases p with
      | mk nm prefs =>
        cases prefs
        simp only at habs
        subst habs
        rfl
    have hd : deltaFavoriteGenre m (addCriterion p (Criterion.favoriteGenre v) 0) =
        JSNum.finite 0 := by
      simp [deltaFavoriteGenre, addCriterion]
    rw [personDelta_clear_favoriteGenre m (addCriterion p (Criterion.favoriteGenre v) 0), hcl,
      hd, JSNum.add_zero]
  | leastFavoriteDirector v =>
    simp only [criterionAbsent] at habs
    have hcl : clearLeastFavoriteDirector
        (addCriterion p (Criterion.leastFavoriteDirector v) 0) = p := by
      cases p with
      | mk nm prefs =>
        cases prefs
        simp only at habs
        subst habs
        rfl
    have hd : deltaLeastFavoriteDirector m
        (addCriterion p (Criterion.leastFavoriteDirector v) 0) = JSNum.finite 0 := by
      simp [deltaLeastFavoriteDirector, addCriterion]
    rw [personDelta_clear_leastFavoriteDirector m
      (addCriterion p (Criterion.leastFavoriteDirector v) 0), hcl, hd, JSNum.add_zero]
  | favoriteActors l =>
    simp only [criterionAbsent] at habs
    simp only [zeroWeightSafe] at hguard
    obtain ⟨a, ha, hc⟩ := hguard
    have hk : ((jsSplit m.actors ", ").filter (fun actor => l.contains actor)).length ≠ 0 := by
      have hmem : a ∈ (jsSplit m.actors ", ").filter (fun actor => l.contains actor) :=
        List.mem_filter.mpr ⟨ha, hc⟩
      intro h0
      rw [List.length_eq_zero] at h0
      rw [h0] at hmem
      cases hmem
    have hcl : clearFavoriteActors (addCriterion p (Criterion.favoriteActors l) 0) = p := by
      cases p with
      | mk nm prefs =>
        cases prefs
        simp only at habs
        subst habs
        rfl
    have hd : deltaFavoriteActors m (addCriterion p (Criterion.favoriteActors l) 0) =
        JSNum.finite 0 := by
      simp [deltaFavoriteActors, addCriterion, jsDiv, hk]
      exact ⟨a, ha, by simpa using hc⟩
    rw [personDelta_clear_favoriteActors m (addCriterion p (Criterion.favoriteActors l) 0),
      hcl, hd, JSNum.add_zero]
  | favoritePlotElements l =>
    simp only [criterionAbsent] at habs
    have hcl : clearFavoritePlotElements
        (addCriterion p (Criterion.favoritePlotElements l) 0) = p := by
      cases p with
      | mk nm prefs =>
        cases prefs
        simp only at habs
        subst habs
        rfl
    have hd : deltaFavoritePlotElements m
        (addCriterion p (Criterion.favoritePlotElements l) 0) = JSNum.finite 0 := by
      simp [deltaFavoritePlotElements, addCriterion]
    rw [personDelta_clear_favoritePlotElements m
      (addCriterion p (Criterion.favoritePlotElements l) 0), hcl, hd, JSNum.add_zero]
  | minimumRottenTomatoesScore v =>
    simp only [criterionAbsent] at habs
    have hcl : clearMinimumRottenTomatoesScore
        (addCriterion p (Criterion.minimumRottenTomatoesScore v) 0) = p := by
      cases p with
      | mk nm prefs =>
        cases prefs
        simp only at habs
        subst habs
        rfl
    have hd : deltaMinimumRottenTomatoesScore m
        (addCriterion p (Criterion.minimumRottenTomatoesScore v) 0) = JSNum.finite 0 := by
      simp [deltaMinimumRottenTomatoesScore, addCriterion]
    rw [personDelta_clear_minimumRottenTomatoesScore m
      (addCriterion p (Criterion.minimumRottenTomatoesScore v) 0), hcl, hd, JSNum.add_zero]

theorem splitSeq_no_h (l : List Char) (h : 'h' ∉ l) :
    ∀ acc, splitSeq ['h'] l acc = [acc.reverse ++ l] := by
  induction l with
  | nil =>
    intro acc
    simp [splitSeq]
  | cons c rest ih =>
    intro acc
    rw [List.mem_cons, not_or] at h
    have hb : leadsWith ['h'] (c :: rest) = false := by
      simp [leadsWith]
      intro hh
      exact h.1 hh
    rw [splitSeq]
    simp only [hb, Bool.and_false, if_false]
    rw [ih h.2 (c :: acc)]
    simp

theorem runtimeToMinutes_no_h (s : String) (h : 'h' ∉ s.data) :
    runtimeToMinutes s = JSNum.nan := by
  simp only [runtimeToMinutes]
  rw [splitSeq_no_h s.data h []]
  rfl

theorem leadsWith_subset :
    ∀ (pat l : List Char), leadsWith pat l = true → ∀ x ∈ pat, x ∈ l := by
  intro pat
  induction pat with
  | nil =>
    intro l _ x hx
    cases hx
  | cons a as ih =>
    intro l h x hx
    cases l with
    | nil => simp [leadsWith] at h
    | cons b bs =>
      rw [leadsWith, Bool.and_eq_true, beq_iff_eq] at h
      rcases List.mem_cons.mp hx with rfl | hxs
      · rw [h.1]
        exact List.mem_cons_self b bs
      · exact List.mem_cons_of_mem b (ih bs h.2 x hxs)

theorem segIn_subset :
    ∀ (pat l : List Char), segIn pat l = true → ∀ x ∈ pat, x ∈ l := by
  intro pat l
  induction l with
  | nil =>
    intro h x hx
    exact leadsWith_subset pat [] h x hx
  | cons c rest ih =>
    intro h x hx
    rw [segIn, Bool.or_eq_true] at h
    rcases h with h | h
    · exact leadsWith_subset pat (c :: rest) h x hx
    · exact List.mem_cons_of_mem c (ih h x hx)

theorem jsCharToLower_not_upper (c : Char) : jsCharToLower c ∉ asciiUppers := by
  unfold jsCharToLower
  cases hf : asciiCasePairs.find? (fun pr => pr.fst == c) with
  | some pr =>
    have hmem : pr ∈ asciiCasePairs := List.mem_of_find?_eq_some hf
    have hall : ∀ q ∈ asciiCasePairs, q.snd ∉ asciiUppers := by decide
    exact hall pr hmem
  | none =>
    intro hup
    have hall := List.find?_eq_none.mp hf
    rw [asciiUppers] at hup
    obtain ⟨q, hq, hqc⟩ := List.mem_map.mp hup
    exact hall q hq (beq_iff_eq.mpr hqc)

theorem mem_lower_of_jsIncludes (g t : String) (h : jsIncludes (jsToLower g) t = true) :
    ∀ ch ∈ t.data, ch ∉ asciiUppers := by
  intro ch hch hup
  have h1 : ch ∈ (jsToLower g).data := segIn_subset t.data (jsToLower g).data h ch hch
  have h2 : ch ∈ g.data.map jsCharToLower := h1
  obtain ⟨c, _, hc⟩ := List.mem_map.mp h2
  exact jsCharToLower_not_upper c (hc ▸ hup)

theorem sortedDescB_of_pairwise :
    ∀ l : List ScoredMovie, l.Pairwise (fun a b => a.score.geB b.score = true) →
      sortedDescB l = true := by
  intro l
  induction l with
  | nil =>
    intro _
    rfl
  | cons a rest ih =>
    intro h
    cases rest with
    | nil => rfl
    | cons b rest2 =>
      rw [List.pairwise_cons] at h
      simp only [sortedDescB, Bool.and_eq_true]
      exact ⟨h.1 b (by simp), ih h.2⟩

/-- Claim C1: the claim states that a `favoriteActors` criterion matching no
cast entry contributes 0 and that the division `w / k` is never a division
by zero.  The code does divide by zero there: at this failing input the
voter's sole criterion is `favoriteActors ["Nobody"]` with weight 5, no
cast entry of `"Tim Robbins, Morgan Freeman"` matches, and
`calculateScore` returns `+Infinity` (the JavaScript value of `5 / 0`)
instead of the claimed 0 — the defect the specification itself flags. -/
theorem C1_favoriteActors_zero_matches_divides :
    calculateScore actorMissMovie [actorMissVoter] = JSNum.posInf ∧
    JSNum.posInf ≠ JSNum.finite 0 := by decide!

/-- Claim C2, counterexample: `runtimeToMinutes "45min"` is `NaN`, not 45 —
with no `"h"` in the input the whole string is parsed as hours and the
destructured minutes component is `undefined`. -/
theorem C2_counterexample :
    runtimeToMinutes "45min" = JSNum.nan ∧ runtimeToMinutes "45min" ≠ JSNum.finite 45 := by
  decide!

/-- Claim C2, amended: `runtimeToMinutes "2h 22min" = 142` and
`runtimeToMinutes "3h" = 180` hold, but an input with no `"h"` character is
not treated as 0 hours with the remainder parsed as minutes: the split
yields a single part, the minutes value is `undefined`, and the result is
`NaN` for every such input. -/
theorem C2_runtime_parsing :
    runtimeToMinutes "2h 22min" = JSNum.finite 142 ∧
    runtimeToMinutes "3h" = JSNum.finite 180 ∧
    ∀ s : String, 'h' ∉ s.data → runtimeToMinutes s = JSNum.nan := by
  refine ⟨by decide!, by decide!, ?_⟩
  intro s h
  exact runtimeToMinutes_no_h s h

/-- Claim C2, witness: the amended theorem applied to `"45min"`. -/
theorem C2_witness : runtimeToMinutes "45min" = JSNum.nan :=
  C2_runtime_parsing.2.2 "45min" (by decide!)

/-- Claim C3, counterexample: adding a weight-0 `favoriteActors` criterion
whose list matches no cast entry changes the item's score from 0 to `NaN`
(JavaScript `0 / 0`), so adding a weight-0 criterion is not always
neutral. -/
theorem C3_counterexample :
    emptyVoter.preferences.favoriteActors = none ∧
    calculateScore actorMissMovie [emptyVoter] = JSNum.finite 0 ∧
    calculateScore actorMissMovie
      [addCriterion emptyVoter (Criterion.favoriteActors ["Nobody"]) 0] = JSNum.nan ∧
    JSNum.nan ≠ JSNum.finite 0 := by decide!

/-- Claim C3, amended: adding an absent criterion with weight 0 (any target
value) to any voter of the roster leaves `calculateScore` unchanged for
every criterion kind, except that for `favoriteActors` at least one cast
entry must match the list — otherwise the code computes `0 / 0 = NaN`. -/
theorem C3_zero_weight_neutral (m : Movie) (pre post : List Person) (p : Person)
    (c : Criterion) (habs : criterionAbsent p c) (hsafe : zeroWeightSafe m c) :
    calculateScore m (pre ++ addCriterion p c 0 :: post) =
      calculateScore m (pre ++ p :: post) :=
  calculateScore_congr m pre post p (addCriterion p c 0)
    (personDelta_addCriterion_zero m p c habs hsafe)

/-- Claim C3, witness: adding `afterYear 1990` with weight 0 to the
preference-free voter leaves the example item's score unchanged. -/
theorem C3_witness :
    calculateScore exampleMovie [addCriterion emptyVoter (Criterion.afterYear 1990) 0] =
      calculateScore exampleMovie [emptyVoter] :=
  C3_zero_weight_neutral exampleMovie [] [] emptyVoter (Criterion.afterYear 1990) rfl
    True.intro

/-- Claim C4: an item whose ratings list has no `"Rotten Tomatoes"` entry
gets `getRottenTomatoesScore` 0 (not an absent marker), and a
`minimumRottenTomatoesScore` criterion on such an item is not skipped but
compared against 0: it contributes `+w` exactly when its target is ≤ 0 and
0 otherwise. -/
theorem C4_missing_rt_is_zero (m : Movie)
    (h : ∀ r ∈ m.ratings, r.source ≠ "Rotten Tomatoes") :
    getRottenTomatoesScore m = JSNum.finite 0 ∧
    ∀ (pre post : List Person) (p : Person) (t w : ℚ),
      p.preferences.minimumRottenTomatoesScore = some ⟨t, w⟩ →
      calculateScore m (pre ++ p :: post) =
        (calculateScore m (pre ++ clearMinimumRottenTomatoesScore p :: post)).add
          (if t ≤ 0 then JSNum.finite w else JSNum.finite 0) := by
  have hnone : m.ratings.find? (fun r => r.source == "Rotten Tomatoes") = none := by
    rw [List.find?_eq_none]
    intro r hr
    simpa using h r hr
  have hrt : getRottenTomatoesScore m = JSNum.finite 0 := by
    simp only [getRottenTomatoesScore, hnone]
  refine ⟨hrt, ?_⟩
  intro pre post p t w hp
  have hd : deltaMinimumRottenTomatoesScore m p =
      (if t ≤ 0 then JSNum.finite w else JSNum.finite 0) := by
    simp only [deltaMinimumRottenTomatoesScore, hp, hrt]
    simp [JSNum.geB, JSNum.leB]
  have hrel := personDelta_clear_minimumRottenTomatoesScore m p
  rw [hd] at hrel
  exact calculateScore_replace m pre post (clearMinimumRottenTomatoesScore p) p _ hrel

/-- Claim C4, witness: the theorem applied to an item with an empty ratings
list and a voter with target −1, weight 2; `−1 ≤ 0` so the contribution is
the full weight. -/
theorem C4_witness :
    getRottenTomatoesScore noRTMovie = JSNum.finite 0 ∧
    calculateScore noRTMovie [minRTVoter] =
      (calculateScore noRTMovie [clearMinimumRottenTomatoesScore minRTVoter]).add
        (if (-1 : ℚ) ≤ 0 then JSNum.finite 2 else JSNum.finite 0) := by
  have h := C4_missing_rt_is_zero noRTMovie (by simp [noRTMovie])
  exact ⟨h.1, h.2 [] [] minRTVoter (-1) 2 rfl⟩

/-- Claim C5: on the §8 example item, the voter with `afterYear 1990`
(weight 5) and `minimumRottenTomatoesScore 90` (weight 3) yields exactly 8:
1994 ≥ 1990 contributes 5 and 91 ≥ 90 contributes 3. -/
theorem C5_example_item_scores_8 :
    calculateScore exampleMovie [exampleVoter] = JSNum.finite 8 := by decide!

/-- Claim C6, counterexample: with a `NaN`-scored item (weight-0
`favoriteActors` with no match) ahead of an item scoring 10, the sort
comparator value `10 − NaN` is `NaN`, treated as 0 by `Array.prototype.sort`,
so the output keeps the `NaN` item first and is not in descending score
order. -/
theorem C6_counterexample :
    rankMovies [nanMovieA, nanMovieB] [nanVoter] =
      [⟨"N1", JSNum.nan⟩, ⟨"N2", JSNum.finite 10⟩] ∧
    sortedDescB (rankMovies [nanMovieA, nanMovieB] [nanVoter]) = false := by decide!

/-- Claim C6, amended: `rankMovies` always returns exactly one pair per
input item — the length is preserved and the multiset of output ids equals
the multiset of input `imdbID`s (no filtering, no deduplication) — and the
output is sorted in descending score order whenever no item's score is
`NaN` (a `NaN` score, reachable only through the `favoriteActors` division
defect, makes the comparator inconsistent). -/
theorem C6_rank_output (movies : List Movie) (people : List Person) :
    (rankMovies movies people).length = movies.length ∧
    List.Perm ((rankMovies movies people).map (fun x => x.id))
      (movies.map (fun mv => mv.imdbID)) ∧
    ((∀ x ∈ rankMovies movies people, x.score ≠ JSNum.nan) →
      sortedDescB (rankMovies movies people) = true) := by
  have hperm : List.Perm (rankMovies movies people)
      (movies.map (fun mv => (⟨mv.imdbID, calculateScore mv people⟩ : ScoredMovie))) := by
    unfold rankMovies
    exact stableSortBy_perm _ _
  refine ⟨?_, ?_, ?_⟩
  · rw [hperm.length_eq, List.length_map]
  · have hm := hperm.map (fun x => x.id)
    simpa [List.map_map, Function.comp] using hm
  · intro hnn
    apply sortedDescB_of_pairwise
    have hin : ∀ y ∈ movies.map
        (fun mv => (⟨mv.imdbID, calculateScore mv people⟩ : ScoredMovie)),
        y.score ≠ JSNum.nan := fun y hy => hnn y (hperm.mem_iff.mpr hy)
    unfold rankMovies
    exact pairwise_stableSortBy _ hin

/-- Claim C6, witness: three items scoring 10, −4, 0 (in input order) are
ranked with identifier order matching the scores 10, 0, −4. -/
theorem C6_witness :
    (rankMovies [rankMovieA, rankMovieB, rankMovieC] [rankVoter]).length = 3 ∧
    List.Perm ((rankMovies [rankMovieA, rankMovieB, rankMovieC] [rankVoter]).map
      (fun x => x.id)) ["A", "B", "C"] ∧
    sortedDescB (rankMovies [rankMovieA, rankMovieB, rankMovieC] [rankVoter]) = true ∧
    (rankMovies [rankMovieA, rankMovieB, rankMovieC] [rankVoter]).map (fun x => x.id) =
      ["A", "C", "B"] := by
  have h := C6_rank_output [rankMovieA, rankMovieB, rankMovieC] [rankVoter]
  exact ⟨h.1, h.2.1, h.2.2 (by decide!), by decide!⟩

/-- Claim C7, counterexample: under the real float64 accumulation the
roster of two voters with weights 0.1 and 0.2, 0.3 (all criteria
satisfied) scores `(0.1 + 0.2) + 0.3 = 0.6000000000000001`
(= 5404319552844596 / 2^53), while the single-voter scores 0.1 and 0.5
fold by the same float64 addition to 0.6 (= 5404319552844595 / 2^53):
`calculateScore` is not per-voter additive, because binary64 addition is
not associative. -/
theorem C7_counterexample :
    calculateScoreFP fpMovie [fpVoter1, fpVoter2] =
      JSNum.finite (5404319552844596 / 9007199254740992) ∧
    ([fpVoter1, fpVoter2].map (fun p => calculateScoreFP fpMovie [p])).foldl
      JSNum.addFP (JSNum.finite 0) =
        JSNum.finite (5404319552844595 / 9007199254740992) ∧
    calculateScoreFP fpMovie [fpVoter1, fpVoter2] ≠
      ([fpVoter1, fpVoter2].map (fun p => calculateScoreFP fpMovie [p])).foldl
        JSNum.addFP (JSNum.finite 0) := by decide!

/-- Claim C7, amended: per-voter additivity for the exact-arithmetic
idealization of the scoring — each voter's block reads only that voter's
criteria, the roster score equals the fold of the single-voter scores,
and the empty roster scores 0.  Under the real binary64 accumulation this
holds only up to rounding (see the counterexample above). -/
theorem C7_per_voter_additivity (m : Movie) (people : List Person) :
    calculateScore m people =
      (people.map (fun p => calculateScore m [p])).foldl JSNum.add (JSNum.finite 0) ∧
    calculateScore m [] = JSNum.finite 0 := by
  constructor
  · simp only [calculateScore_singleton]
    rw [foldl_add_eq_scoreSum, calculateScore_eq]
  · rfl

/-- Claim C8: a `maximumAgeRating` criterion with target `t`, weight `w`
contributes `+w` exactly when the item's rated string is ≤ `t` under plain
lexicographic string comparison (`jsStrLe`, the embedding of JavaScript's
raw string `<=`; no curated ordinal scale is consulted), and 0 otherwise. -/
theorem C8_maximumAgeRating_lex (m : Movie) (pre post : List Person) (p : Person)
    (t : String) (w : ℚ) (h : p.preferences.maximumAgeRating = some ⟨t, w⟩) :
    calculateScore m (pre ++ p :: post) =
      (calculateScore m (pre ++ clearMaximumAgeRating p :: post)).add
        (if jsStrLe m.rated t then JSNum.finite w else JSNum.finite 0) := by
  have hd : deltaMaximumAgeRating m p =
      (if jsStrLe m.rated t then JSNum.finite w else JSNum.finite 0) := by
    simp [deltaMaximumAgeRating, h]
  have hrel := personDelta_clear_maximumAgeRating m p
  rw [hd] at hrel
  exact calculateScore_replace m pre post (clearMaximumAgeRating p) p _ hrel

/-- Claim C8, witness: the theorem applied to an item rated `"PG-13"` and a
voter with target `"R"`, weight 4; `"PG-13" <= "R"` lexicographically, so
the criterion contributes 4. -/
theorem C8_witness :
    calculateScore ratedMovie [maxAgeVoter] =
      (calculateScore ratedMovie [clearMaximumAgeRating maxAgeVoter]).add
        (if jsStrLe ratedMovie.rated "R" then JSNum.finite 4 else JSNum.finite 0) ∧
    jsStrLe ratedMovie.rated "R" = true :=
  ⟨C8_maximumAgeRating_lex ratedMovie [] [] maxAgeVoter "R" 4 rfl, by decide!⟩

/-- Claim C9: the `favoriteGenre` check lowercases only the item's genre,
never the target — the contribution is `+w` exactly when the lowercased
genre contains the target as given — and consequently a target containing
an uppercase ASCII letter is never satisfied and contributes 0. -/
theorem C9_favoriteGenre_target_not_folded (m : Movie) (pre post : List Person)
    (p : Person) (t : String) (w : ℚ) (h : p.preferences.favoriteGenre = some ⟨t, w⟩) :
    (calculateScore m (pre ++ p :: post) =
      (calculateScore m (pre ++ clearFavoriteGenre p :: post)).add
        (if jsIncludes (jsToLower m.genre) t then JSNum.finite w else JSNum.finite 0)) ∧
    ((∃ ch ∈ t.data, ch ∈ asciiUppers) →
      calculateScore m (pre ++ p :: post) =
        calculateScore m (pre ++ clearFavoriteGenre p :: post)) := by
  have hd : deltaFavoriteGenre m p =
      (if jsIncludes (jsToLower m.genre) t then JSNum.finite w else JSNum.finite 0) := by
    simp [deltaFavoriteGenre, h]
  have hrel := personDelta_clear_favoriteGenre m p
  rw [hd] at hrel
  have hmain := calculateScore_replace m pre post (clearFavoriteGenre p) p _ hrel
  refine ⟨hmain, ?_⟩
  intro hupper
  have hfalse : jsIncludes (jsToLower m.genre) t = false := by
    cases hb : jsIncludes (jsToLower m.genre) t
    · rfl
    · obtain ⟨ch, hch, hup⟩ := hupper
      exact absurd hup (mem_lower_of_jsIncludes m.genre t hb ch hch)
  rw [hmain, hfalse]
  simp [JSNum.add_zero]

/-- Claim C9, witness: the voter's target `"Drama"` contains the uppercase
`'D'`, so on the item with genre `"Drama"` the criterion contributes
nothing. -/
theorem C9_witness :
    calculateScore genreMovie [genreVoter] =
      calculateScore genreMovie [clearFavoriteGenre genreVoter] :=
  (C9_favoriteGenre_target_not_folded genreMovie [] [] genreVoter "Drama" 2 rfl).2
    ⟨'D', by decide!, by decide!⟩

/-- Claim C10: when the `"Rotten Tomatoes"` entry exists but its value has
no leading numeral, the extracted score is `NaN`, and a
`minimumRottenTomatoesScore` criterion is then satisfied for no target
value, contributing 0 (without raising an error). -/
theorem C10_unparseable_rt_never_satisfied (m : Movie) (r : Rating)
    (hfind : m.ratings.find? (fun rt => rt.source == "Rotten Tomatoes") = some r)
    (hparse : parseIntJS (jsReplaceFirst r.value "%" "") = none) :
    getRottenTomatoesScore m = JSNum.nan ∧
    ∀ (pre post : List Person) (p : Person) (t w : ℚ),
      p.preferences.minimumRottenTomatoesScore = some ⟨t, w⟩ →
      calculateScore m (pre ++ p :: post) =
        calculateScore m (pre ++ clearMinimumRottenTomatoesScore p :: post) := by
  have hrt : getRottenTomatoesScore m = JSNum.nan := by
    simp only [getRottenTomatoesScore, hfind]
    rw [hparse]
    rfl
  refine ⟨hrt, ?_⟩
  intro pre post p t w hp
  have hd : deltaMinimumRottenTomatoesScore m p = JSNum.finite 0 := by
    simp [deltaMinimumRottenTomatoesScore, hp, hrt, JSNum.geB, JSNum.leB]
  have hrel := personDelta_clear_minimumRottenTomatoesScore m p
  rw [hd, JSNum.add_zero] at hrel
  exact calculateScore_congr m pre post (clearMinimumRottenTomatoesScore p) p hrel

/-- Claim C10, witness: the theorem applied to an item whose Rotten
Tomatoes value is `"N/A"` and a voter with target 50, weight 2. -/
theorem C10_witness :
    getRottenTomatoesScore naMovie = JSNum.nan ∧
    calculateScore naMovie [rtVoter] =
      calculateScore naMovie [clearMinimumRottenTomatoesScore rtVoter] := by
  have h := C10_unparseable_rt_never_satisfied naMovie ⟨"Rotten Tomatoes", "N/A"⟩
    (by decide!) (by decide!)
  exact ⟨h.1, h.2 [] [] rtVoter 50 2 rfl⟩

end MovieRank
